import Mathlib

/-!
Shallow embedding of `DCGAN_FID_batched/model.py` (class `DCGAN`): the
loss/penalty engine, the optimizer variable partition, the inner training
step, the FID error handling, the constructor checks and the checkpoint
cadence. Python floats are modelled as exact rationals; TensorFlow graph
nodes become pure functions of their (concrete or opaque) inputs; values
that come out of automatic differentiation (`tf.gradients`, `tf.map_fn`
target slopes) are taken as opaque input data, since only downstream
arithmetic on them is claimed.
-/

namespace DCGANModel

/-- Mean of a list of rationals, as computed by `tf.reduce_mean` over a
batch axis (sum divided by length; the empty case never occurs for a
positive batch size, and `0 / 0 = 0` in `ℚ`). -/
def qmean (xs : List ℚ) : ℚ := xs.sum / xs.length

/-! ### Penalized-WGAN Lipschitz penalty (model.py lines 211-219)

`top` is one entry of `tf.squeeze(D_logits_real - D_logits_interpolate)`
and `bot` the matching entry of `l2norm(inputs - G_interpolate)`. The code
computes elementwise
`tf.where(tf.less(bot, 10e-9 * ones), zeros, tf.square(top) / bot)`;
the Python literal `10e-9` equals `10 / 10^9 = 1e-8`. -/

/-- One sample's Lipschitz penalty term: `0` when `bot < 10e-9`, else
`top^2 / bot` (model.py line 217). -/
def diffPenaltyTerm (top bot : ℚ) : ℚ :=
  if bot < 10 / 10 ^ 9 then 0 else top ^ 2 / bot

/-- One sample's Lipschitz estimate term: `0` when `bot < 10e-9`, else
`top / bot` (model.py line 218). -/
def lipschitzEstimateTerm (top bot : ℚ) : ℚ :=
  if bot < 10 / 10 ^ 9 then 0 else top / bot

/-- `self.d_lipschitz_penalty_loss = self.lipschitz_penalty *
tf.reduce_mean(diff_penalty)` (model.py line 219). -/
def dLipschitzPenaltyLossOf (lipschitz_penalty : ℚ) (tops bots : List ℚ) : ℚ :=
  lipschitz_penalty * qmean (List.zipWith diffPenaltyTerm tops bots)

/-- `self.d_lipschitz_estimate = tf.reduce_mean(tf.where(...))`
(model.py line 218). -/
def dLipschitzEstimateOf (tops bots : List ℚ) : ℚ :=
  qmean (List.zipWith lipschitzEstimateTerm tops bots)

/-! ### The four penalty-related scalars (model.py lines 196-301)

The graph first sets all four scalars to `tf.zeros([])` (lines 197-200)
and then, depending on `self.gan_method`, overwrites some of them:
the `penalized_wgan` branch (lines 202-270) overwrites all four, the
`improved_wgan` branch (lines 272-290) overwrites only
`d_gradient_penalty_loss`, and the `regular_gan` branch (lines 292-301)
overwrites none. -/

/-- Opaque per-batch data feeding the penalty branches: `tops`/`bots` as
above; `slopes` are the autodiff gradient norms of line 223;
`mapSlopeTargets` are the per-sample `tf.map_fn` outputs of lines 233-262;
`improvedSlopes` are the autodiff gradient norms of line 288. -/
structure PenaltyData where
  tops : List ℚ
  bots : List ℚ
  slopes : List ℚ
  mapSlopeTargets : List ℚ
  improvedSlopes : List ℚ

/-- The target slope of the penalized branch: the per-sample `map_fn`
output when `calculate_slope` is set, otherwise the constant
`1 / (2 * lipschitz_penalty)` broadcast over the batch
(model.py lines 225-265). -/
def dSlopeTargets (calculate_slope : Bool) (lipschitz_penalty : ℚ)
    (data : PenaltyData) : List ℚ :=
  if calculate_slope then data.mapSlopeTargets
  else List.replicate data.slopes.length (1 / (2 * lipschitz_penalty))

/-- The four penalty-related scalars read uniformly by the logging code:
`d_lipschitz_penalty_loss`, `d_gradient_penalty_loss`,
`d_mean_slope_target`, `d_lipschitz_estimate`. -/
structure PenaltyScalars where
  dLipschitzPenaltyLossF : ℚ
  dGradientPenaltyLossF : ℚ
  dMeanSlopeTargetF : ℚ
  dLipschitzEstimateF : ℚ

/-- Builds the four penalty scalars exactly as `build_model` does: start
from zeros (lines 197-200), then conditionally overwrite per
`gan_method` (lines 202-290). -/
def buildPenaltyScalars (gan_method : String) (lipschitz_penalty gradient_penalty : ℚ)
    (calculate_slope : Bool) (data : PenaltyData) : PenaltyScalars :=
  let s0 : PenaltyScalars := ⟨0, 0, 0, 0⟩
  let s1 : PenaltyScalars :=
    if gan_method = "penalized_wgan" then
      let targets := dSlopeTargets calculate_slope lipschitz_penalty data
      { dLipschitzPenaltyLossF := dLipschitzPenaltyLossOf lipschitz_penalty data.tops data.bots
        dGradientPenaltyLossF :=
          gradient_penalty * qmean (List.zipWith (fun s t => (s - t) ^ 2) data.slopes targets)
        dMeanSlopeTargetF := qmean targets
        dLipschitzEstimateF := dLipschitzEstimateOf data.tops data.bots }
    else s0
  if gan_method = "improved_wgan" then
    { s1 with dGradientPenaltyLossF :=
        gradient_penalty * qmean (data.improvedSlopes.map (fun s => (s - 1) ^ 2)) }
  else s1

/-! ### Improved-WGAN interpolation coefficient (model.py lines 280-285)

The `improved_wgan` branch draws
`alpha = tf.random_uniform(shape=[self.batch_size, 1], minval=0., maxval=1.)`
and computes `interpolates = alpha * inputs + ((1 - alpha) * self.G)` where
`inputs` and `self.G` are NHWC tensors of shape
`[batch_size, H, W, C]`. TensorFlow multiplies with NumPy broadcasting:
the shape `[B, 1]` is right-aligned against `[B, H, W, C]`, i.e. promoted
to `[1, 1, B, 1]`, so the axis of length `B` must match the width axis
`W` (the graph fails to build when `B ≠ W` and neither is 1), and the
coefficient used at output index `(b, h, w, c)` is `alpha[w, 0]`. -/

/-- A rank-4 NHWC tensor with rational entries. -/
def Tensor4 (B H W C : ℕ) := Fin B → Fin H → Fin W → Fin C → ℚ

/-- The `improved_wgan` interpolates node: under the NumPy broadcast of
the `[B, 1]`-shaped `alpha` against `[B, H, W, C]` (possible only when
`B = W`), entry `(b, h, w, c)` is
`alpha[w] * inputs[b,h,w,c] + (1 - alpha[w]) * G[b,h,w,c]`. -/
def improvedInterpolates (B H W C : ℕ) (hBW : B = W) (alpha : Fin B → ℚ)
    (inputs G : Tensor4 B H W C) : Tensor4 B H W C :=
  fun b h w c =>
    alpha ⟨w.val, by rw [hBW]; exact w.isLt⟩ * inputs b h w c +
      (1 - alpha ⟨w.val, by rw [hBW]; exact w.isLt⟩) * G b h w c

/-- Concrete draw of `alpha` with two distinct values: entry `i` is `i`. -/
def exAlpha : Fin 2 → ℚ := fun w => (w.val : ℚ)

/-- A real batch that is constant (every pixel of every sample is 1). -/
def exReal : Tensor4 2 1 2 1 := fun _ _ _ _ => 1

/-- A fake batch that is constant (every pixel of every sample is 0). -/
def exFake : Tensor4 2 1 2 1 := fun _ _ _ _ => 0

/-! ### Variable partition and optimizer frame (model.py lines 320-346)

`t_vars = tf.trainable_variables()`;
`d_vars = [var for var in t_vars if 'd_' in var.name]`;
`g_vars = [var for var in t_vars if 'g_' in var.name]`; each Adam
optimizer computes and applies gradients with `var_list` restricted to
its own set. -/

/-- Does `needle` occur at the front of `hay`? -/
def charsMatchFront : List Char → List Char → Bool
  | [], _ => true
  | _ :: _, [] => false
  | a :: as, b :: bs => a == b && charsMatchFront as bs

/-- Does `needle` occur anywhere in `hay` (Python's `in` on strings)? -/
def charsContain (needle : List Char) : List Char → Bool
  | [] => charsMatchFront needle []
  | hay@(_ :: rest) => charsMatchFront needle hay || charsContain needle rest

/-- Python's substring test `needle in hay`. -/
def strContainsSub (hay needle : String) : Bool :=
  charsContain needle.toList hay.toList

/-- Modelled from the spec: the trainable-variable names created by the
layer library (`ops.py`: `conv2d`, `deconv2d`, `linear`, `batch_norm`),
which is outside `src/`. Each layer opens a variable scope with the name
passed from `model.py` (`d_h0_conv` ... `d_h3_lin` inside scope
`discriminator`, `g_h0_lin` ... `g_h4` inside scope `generator`,
per `discriminator`/`generator`/`sampler_func` and the `d_bn*`/`g_bn*`
batch norms of `__init__`), and creates its trainable parameters under
that scope; the spec describes the partition of exactly these parameters
by `d_`/`g_` name-prefix match. Non-trainable variables (learning rates,
`fid`, batch-norm moving statistics) are excluded by
`tf.trainable_variables()`. -/
def trainableVarNames : List String :=
  [ "discriminator/d_h0_conv/w", "discriminator/d_h0_conv/biases",
    "discriminator/d_bn1/beta", "discriminator/d_bn1/gamma",
    "discriminator/d_h1_conv/w", "discriminator/d_h1_conv/biases",
    "discriminator/d_bn2/beta", "discriminator/d_bn2/gamma",
    "discriminator/d_h2_conv/w", "discriminator/d_h2_conv/biases",
    "discriminator/d_bn3/beta", "discriminator/d_bn3/gamma",
    "discriminator/d_h3_conv/w", "discriminator/d_h3_conv/biases",
    "discriminator/d_h3_lin/Matrix", "discriminator/d_h3_lin/bias",
    "generator/g_h0_lin/Matrix", "generator/g_h0_lin/bias",
    "generator/g_bn0/beta", "generator/g_bn0/gamma",
    "generator/g_h1/w", "generator/g_h1/biases",
    "generator/g_bn1/beta", "generator/g_bn1/gamma",
    "generator/g_h2/w", "generator/g_h2/biases",
    "generator/g_bn2/beta", "generator/g_bn2/gamma",
    "generator/g_h3/w", "generator/g_h3/biases",
    "generator/g_bn3/beta", "generator/g_bn3/gamma",
    "generator/g_h4/w", "generator/g_h4/biases" ]

/-- `self.d_vars = [var for var in t_vars if 'd_' in var.name]`
(model.py line 323). -/
def dVarNames : List String :=
  trainableVarNames.filter (fun n => strContainsSub n "d_")

/-- `self.g_vars = [var for var in t_vars if 'g_' in var.name]`
(model.py line 324). -/
def gVarNames : List String :=
  trainableVarNames.filter (fun n => strContainsSub n "g_")

/-- The value store of all variables, keyed by full name. -/
def VarStore := String → ℚ

/-- One optimizer application restricted to `varList`
(`compute_gradients(..., var_list=...)` followed by `apply_gradients`,
model.py lines 331-346): every variable in the list is updated by the
gradient step `upd`, every other variable keeps its value. -/
def applyGradients (varList : List String) (upd : String → ℚ → ℚ)
    (store : VarStore) : VarStore :=
  fun n => if n ∈ varList then upd n (store n) else store n

/-- Concrete variable store for the witness. -/
def exStore : VarStore := fun _ => 0

/-- Concrete gradient step for the witness. -/
def exUpd : String → ℚ → ℚ := fun _ x => x + 1

/-! ### Inner training step (model.py lines 423-440) -/

/-- The optimizer applications observable in one inner-loop step. -/
inductive TrainOp
  | applyD
  | applyG
deriving DecidableEq

/-- The optimizer applications of one inner-loop step: one `sess.run`
of `d_optim` (line 425), then `num_discriminator_updates - 1` further
runs of `d_optim` (lines 428-430), then one run of `g_optim` iff
`config.learning_rate_g > 0.` (lines 435-436). -/
def innerStepOps (num_discriminator_updates : ℕ) (learning_rate_g : ℚ) : List TrainOp :=
  [TrainOp.applyD] ++ List.replicate (num_discriminator_updates - 1) TrainOp.applyD ++
    (if 0 < learning_rate_g then [TrainOp.applyG] else [])

/-- One inner-loop step paired with the diagnostics it retains:
`dRunResults i` is the tuple of loss/penalty fetches returned by the
`i`-th discriminator run; the step binds only the first run's results
(line 425) and discards the results of the repeat runs (lines 428-430). -/
def innerStepRun (num_discriminator_updates : ℕ) (learning_rate_g : ℚ)
    (dRunResults : ℕ → List ℚ) : List TrainOp × List ℚ :=
  (innerStepOps num_discriminator_updates learning_rate_g, dRunResults 0)

/-! ### FID sample-count adjustment (model.py lines 371-377) -/

/-- The end-of-`build_model` adjustment: when `fid_n_samples` is not a
multiple of `fid_sample_batchsize`, replace it by
`(fid_n_samples // fid_sample_batchsize) * fid_sample_batchsize` and
print a warning (returned here as the Boolean component). -/
def adjustFidSamples (fid_n_samples fid_sample_batchsize : ℕ) : ℕ × Bool :=
  if ¬ (fid_n_samples % fid_sample_batchsize = 0) then
    ((fid_n_samples / fid_sample_batchsize) * fid_sample_batchsize, true)
  else (fid_n_samples, false)

/-! ### Exit paths of the training loop (model.py lines 412-521) -/

/-- How the epoch/batch loop body of `train` terminates. -/
inductive ExitCause
  | normal
  | interrupt
  | uncaughtError
deriving DecidableEq

/-- The externally visible actions of the handlers around the loop. -/
inductive TrainAction
  | saveCheckpoint (step : ℕ)
  | printErrorMsg
  | requestStop
  | joinThreads
deriving DecidableEq

/-- The actions executed after the loop body terminates with `cause` at
step counter `counter`: `except KeyboardInterrupt` saves a checkpoint at
the current counter (line 515), `except Exception` prints the error
(line 517), and the `finally` block (lines 518-521) runs
`coord.request_stop()` then `coord.join(threads)` on every path. -/
def trainExitActions (cause : ExitCause) (counter : ℕ) : List TrainAction :=
  (match cause with
    | ExitCause.normal => []
    | ExitCause.interrupt => [TrainAction.saveCheckpoint counter]
    | ExitCause.uncaughtError => [TrainAction.printErrorMsg]) ++
  [TrainAction.requestStop, TrainAction.joinThreads]

/-! ### FID fallback (model.py lines 496-500) -/

/-- Python's `try: x = body except Exception: x = handler(e)` around a
fallible computation: the handled block always produces a value. -/
def pyTryExcept (body : Except String ℚ) (handler : String → ℚ) : Except String ℚ :=
  match body with
  | Except.ok v => Except.ok v
  | Except.error e => Except.ok (handler e)

/-- The FID recording block: `FID = fid.calculate_frechet_distance(...)`
guarded by `except Exception as e: print(e); FID = 500`. -/
def fidWithFallback (result : Except String ℚ) : Except String ℚ :=
  pyTryExcept result (fun _ => 500)

/-! ### Constructor checks (model.py lines 68-72) -/

/-- The recognized `gan_method` values. -/
def allowedGanMethods : List String :=
  ["penalized_wgan", "improved_wgan", "regular_gan"]

/-- The four `assert` statements at the top of `DCGAN.__init__`, in
source order; a failed `assert` raises before any graph or training
step is built. -/
def dcganInitChecks (lipschitz_penalty gradient_penalty : ℚ) (gan_method : String)
    (num_discriminator_updates : ℤ) : Except String Unit :=
  if ¬ (lipschitz_penalty ≥ 0) then
    Except.error "the lipschitz penalty must be non-negative"
  else if ¬ (gradient_penalty ≥ 0) then
    Except.error "the lipschitz penalty must be non-negative"
  else if ¬ (gan_method ∈ allowedGanMethods) then
    Except.error "the gan method must be of type penalized_wgan, improved_wgan or regular_gan"
  else if ¬ (num_discriminator_updates ≥ 1) then
    Except.error "num_discriminator_updates must be at least 1"
  else Except.ok ()

/-! ### Checkpoint cadence (model.py lines 509-511) -/

/-- `if (counter != 0) and (np.mod(counter, 2000) == 0): self.save(...)`. -/
def checkpointDue (counter : ℕ) : Bool :=
  (counter != 0) && (counter % 2000 == 0)

/-! ## Theorems -/

/-- C1: the claim says the improved_wgan interpolation coefficient is one
scalar per sample, broadcast identically over all pixels and channels and
never varying within a sample. The code's `[batch_size, 1]`-shaped
`alpha` broadcasts along the width axis instead: with a real batch that
is constantly 1 and a fake batch that is constantly 0 (so the
interpolate entry equals the effective coefficient), sample 0 receives
coefficient 0 at width 0 and coefficient 1 at width 1 — the coefficient
varies within the sample — and sample 1 receives the same per-width
coefficients as sample 0. -/
theorem improved_wgan_alpha_varies_within_sample :
    improvedInterpolates 2 1 2 1 rfl exAlpha exReal exFake 0 0 0 0 = 0 ∧
    improvedInterpolates 2 1 2 1 rfl exAlpha exReal exFake 0 0 1 0 = 1 ∧
    improvedInterpolates 2 1 2 1 rfl exAlpha exReal exFake 0 0 0 0 ≠
      improvedInterpolates 2 1 2 1 rfl exAlpha exReal exFake 0 0 1 0 ∧
    improvedInterpolates 2 1 2 1 rfl exAlpha exReal exFake 0 0 1 0 =
      improvedInterpolates 2 1 2 1 rfl exAlpha exReal exFake 1 0 1 0 := by
  refine ⟨?_, ?_, ?_, ?_⟩ <;>
    norm_num [improvedInterpolates, exAlpha, exReal, exFake]

/-- C2: the four penalty-related scalars start at exact zero and only the
selected method's branch overwrites any of them, so for `regular_gan` all
four are exactly zero, and for `improved_wgan` the Lipschitz penalty
loss, mean slope target and Lipschitz estimate are exactly zero — they
can all be read regardless of the active method. -/
theorem unselected_penalty_scalars_zero (lipschitz_penalty gradient_penalty : ℚ)
    (calculate_slope : Bool) (data : PenaltyData) :
    buildPenaltyScalars "regular_gan" lipschitz_penalty gradient_penalty
        calculate_slope data = ⟨0, 0, 0, 0⟩ ∧
    (buildPenaltyScalars "improved_wgan" lipschitz_penalty gradient_penalty
        calculate_slope data).dLipschitzPenaltyLossF = 0 ∧
    (buildPenaltyScalars "improved_wgan" lipschitz_penalty gradient_penalty
        calculate_slope data).dMeanSlopeTargetF = 0 ∧
    (buildPenaltyScalars "improved_wgan" lipschitz_penalty gradient_penalty
        calculate_slope data).dLipschitzEstimateF = 0 :=
  ⟨rfl, rfl, rfl, rfl⟩

/-- C3: the per-sample Lipschitz penalty term of `penalized_wgan` equals
`diff^2 / dist` whenever `dist ≥ 1e-8`, equals exactly 0 whenever
`dist < 1e-8` regardless of `diff`, and the final loss is
`lipschitz_penalty` times the mean of the per-sample terms, so the
division is always guarded. -/
theorem lipschitz_penalty_guard (top bot lipschitz_penalty : ℚ)
    (tops bots : List ℚ) :
    (bot < 1 / 10 ^ 8 → diffPenaltyTerm top bot = 0) ∧
    (1 / 10 ^ 8 ≤ bot → diffPenaltyTerm top bot = top ^ 2 / bot) ∧
    dLipschitzPenaltyLossOf lipschitz_penalty tops bots =
      lipschitz_penalty * qmean (List.zipWith diffPenaltyTerm tops bots) := by
  have hthr : (10 : ℚ) / 10 ^ 9 = 1 / 10 ^ 8 := by norm_num
  refine ⟨fun h => ?_, fun h => ?_, rfl⟩
  · unfold diffPenaltyTerm
    rw [if_pos (by rw [hthr]; exact h)]
  · unfold diffPenaltyTerm
    rw [if_neg (by rw [hthr]; exact not_lt.mpr h)]

/-- Witness for C3 at concrete inputs: `dist = 0 < 1e-8` gives term 0
even with `diff = 5`, and `dist = 1 ≥ 1e-8` gives `3^2 / 1`. -/
theorem lipschitz_penalty_guard_witness :
    diffPenaltyTerm 5 0 = 0 ∧ diffPenaltyTerm 3 1 = 3 ^ 2 / 1 :=
  ⟨(lipschitz_penalty_guard 5 0 0 [] []).1 (by norm_num),
   (lipschitz_penalty_guard 3 1 0 [] []).2.1 (by norm_num)⟩

/-- C4: the variable sets selected by the `d_` / `g_` substring match are
disjoint, and one optimizer application restricted to its own set leaves
every variable of the other set unchanged, in both directions. -/
theorem optimizer_updates_disjoint (store : VarStore) (upd : String → ℚ → ℚ) :
    (∀ v ∈ dVarNames, v ∉ gVarNames) ∧
    (∀ v ∈ gVarNames, applyGradients dVarNames upd store v = store v) ∧
    (∀ v ∈ dVarNames, applyGradients gVarNames upd store v = store v) := by
  have hd : ∀ v ∈ dVarNames, v ∉ gVarNames := by decide
  have hg : ∀ v ∈ gVarNames, v ∉ dVarNames := by decide
  refine ⟨hd, fun v hv => ?_, fun v hv => ?_⟩
  · exact if_neg (hg v hv)
  · exact if_neg (hd v hv)

/-- Witness for C4: applying the discriminator update to a concrete
store leaves the generator variable `generator/g_h0_lin/Matrix`
unchanged. -/
theorem optimizer_updates_disjoint_witness :
    applyGradients dVarNames exUpd exStore "generator/g_h0_lin/Matrix" =
      exStore "generator/g_h0_lin/Matrix" :=
  (optimizer_updates_disjoint exStore exUpd).2.1 "generator/g_h0_lin/Matrix" (by decide)

/-- C5: with `num_discriminator_updates = k ≥ 1`, one inner-loop step
applies the discriminator optimizer exactly `k` times and retains only
the first application's diagnostics; the generator optimizer is applied
exactly once when the configured generator learning rate is positive and
zero times when it is zero. -/
theorem discriminator_generator_update_counts (k : ℕ) (learning_rate_g : ℚ)
    (dRunResults : ℕ → List ℚ) (hk : 1 ≤ k) :
    (innerStepRun k learning_rate_g dRunResults).1.count TrainOp.applyD = k ∧
    (0 < learning_rate_g →
      (innerStepRun k learning_rate_g dRunResults).1.count TrainOp.applyG = 1) ∧
    (learning_rate_g = 0 →
      (innerStepRun k learning_rate_g dRunResults).1.count TrainOp.applyG = 0) ∧
    (innerStepRun k learning_rate_g dRunResults).2 = dRunResults 0 := by
  refine ⟨?_, fun hlr => ?_, fun hlr => ?_, rfl⟩
  · by_cases hlr : 0 < learning_rate_g <;>
      simp [innerStepRun, innerStepOps, hlr, List.count_append, List.count_replicate,
        List.count_singleton, List.count_cons, List.count_nil] <;> omega
  · simp [innerStepRun, innerStepOps, hlr, List.count_append, List.count_replicate,
      List.count_singleton, List.count_cons, List.count_nil]
  · simp [innerStepRun, innerStepOps, hlr, List.count_append, List.count_replicate,
      List.count_singleton, List.count_cons, List.count_nil]

/-- Witness for C5 at `k = 2`, positive generator learning rate: two
discriminator applications and one generator application. -/
theorem discriminator_generator_update_counts_witness :
    (innerStepRun 2 1 (fun _ => ([] : List ℚ))).1.count TrainOp.applyD = 2 ∧
    (innerStepRun 2 1 (fun _ => ([] : List ℚ))).1.count TrainOp.applyG = 1 ∧
    (innerStepRun 3 0 (fun _ => ([] : List ℚ))).1.count TrainOp.applyG = 0 :=
  ⟨(discriminator_generator_update_counts 2 1 (fun _ => []) (by norm_num)).1,
   (discriminator_generator_update_counts 2 1 (fun _ => []) (by norm_num)).2.1 (by norm_num),
   (discriminator_generator_update_counts 3 0 (fun _ => []) (by norm_num)).2.2.1 rfl⟩

/-- C6: when `fid_n_samples` is not a multiple of
`fid_sample_batchsize`, it is reduced to
`(fid_n_samples // fid_sample_batchsize) * fid_sample_batchsize` with a
warning; when it is already a multiple, it is unchanged and no warning
is printed. -/
theorem fid_samples_adjustment (fid_n_samples fid_sample_batchsize : ℕ)
    (_hbs : 0 < fid_sample_batchsize) :
    (¬ (fid_n_samples % fid_sample_batchsize = 0) →
      adjustFidSamples fid_n_samples fid_sample_batchsize =
        ((fid_n_samples / fid_sample_batchsize) * fid_sample_batchsize, true)) ∧
    (fid_n_samples % fid_sample_batchsize = 0 →
      adjustFidSamples fid_n_samples fid_sample_batchsize = (fid_n_samples, false)) := by
  refine ⟨fun h => ?_, fun h => ?_⟩ <;> simp [adjustFidSamples, h]

/-- Witness for C6: `fid_n_samples = 10000` with
`fid_sample_batchsize = 3000` is adjusted down to 9000 with a warning,
and 9000 is left unchanged without one. -/
theorem fid_samples_adjustment_witness :
    adjustFidSamples 10000 3000 = (9000, true) ∧
    adjustFidSamples 9000 3000 = (9000, false) := by
  constructor
  · have h := (fid_samples_adjustment 10000 3000 (by norm_num)).1 (by norm_num)
    simpa using h
  · exact (fid_samples_adjustment 9000 3000 (by norm_num)).2 (by norm_num)

/-- C7: on every exit cause of the training loop — normal completion,
interrupt, or uncaught exception — the trailing actions are the
finalizer's `request_stop` followed by `join`; and on an interrupt a
checkpoint is saved at the current counter before that finalizer runs. -/
theorem shutdown_on_all_exit_paths (cause : ExitCause) (counter : ℕ) :
    (∃ pre, trainExitActions cause counter =
      pre ++ [TrainAction.requestStop, TrainAction.joinThreads]) ∧
    trainExitActions ExitCause.interrupt counter =
      [TrainAction.saveCheckpoint counter, TrainAction.requestStop,
       TrainAction.joinThreads] := by
  cases cause <;> exact ⟨⟨_, rfl⟩, rfl⟩

/-- C8: if the Fréchet distance computation raises, the handled FID block
records the sentinel 500; if it succeeds, the computed value is recorded;
in every case the block produces a value (never propagates the error), so
the training loop continues with the next step. -/
theorem fid_error_fallback (e : String) (v : ℚ) (r : Except String ℚ) :
    fidWithFallback (Except.error e) = Except.ok 500 ∧
    fidWithFallback (Except.ok v) = Except.ok v ∧
    (fidWithFallback r).isOk = true := by
  refine ⟨rfl, rfl, ?_⟩
  cases r <;> rfl

/-- C9: construction fails (some assertion raises) exactly when
`gan_method` is not one of the three recognized values, or
`lipschitz_penalty < 0`, or `gradient_penalty < 0`, or
`num_discriminator_updates < 1`; in particular `gan_method = "bogus"`
is rejected before any training step executes. -/
theorem invalid_config_rejected (lipschitz_penalty gradient_penalty : ℚ)
    (gan_method : String) (num_discriminator_updates : ℤ) :
    (∃ msg, dcganInitChecks lipschitz_penalty gradient_penalty gan_method
        num_discriminator_updates = Except.error msg) ↔
      (lipschitz_penalty < 0 ∨ gradient_penalty < 0 ∨
       gan_method ∉ allowedGanMethods ∨ num_discriminator_updates < 1) := by
  unfold dcganInitChecks
  split_ifs with h1 h2 h3 h4 <;> simp_all [not_le, le_refl]

/-- C10: a checkpoint is persisted at a step iff the counter is nonzero
and divisible by 2000; in particular no checkpoint is saved at counter
0. -/
theorem checkpoint_cadence (counter : ℕ) :
    (checkpointDue counter = true ↔ (counter ≠ 0 ∧ 2000 ∣ counter)) ∧
    checkpointDue 0 = false := by
  refine ⟨?_, rfl⟩
  simp only [checkpointDue, Bool.and_eq_true, bne_iff_ne, beq_iff_eq, ne_eq]
  omega

end DCGANModel
